import Mathlib

/-!
# Verification of the watchlog-api progress reconciler

Shallow embedding of the watchlog-api backend (Python/Flask/SQLAlchemy) in
Lean 4, faithful to the source files:

* `src/models/watch_entry.py` — the `WatchEntry` model with
  `percentage_watched` and `mark_as_watched`;
* `src/models/seasons.py`, `src/models/series.py`, `src/models/movie.py` —
  catalog entities;
* `src/api/progress.py` — `require_user_id`, `ProgressService.add_movie`,
  `ProgressService.add_series`, `ProgressService.update_series_progress`
  and the route-level error mapping;
* `src/api/series.py` — `SeriesService.add_season` and its route.

Modelling conventions:

* Nullable integer columns become `Option Int`; Python `x or 0` on such a
  value becomes `orZero` (`none` ↦ 0, `some v` ↦ `v`; for an `Int` the
  Python expression is value-identical to the input).
* A Python comparison `None > 0` raises `TypeError`; fallible code is
  embedded in `Except PyError`.
* Python floats are modelled as exact rationals; `round(x, 2)` becomes
  round-half-to-even at two decimal places (`round2`).
* Timestamps (`datetime.utcnow`) are an abstract `Nat` supplied by the
  caller as `now`.
* The SQLAlchemy relationship `entry.series_content.seasons` is the live
  list of seasons of the referenced series at call time; it is carried as
  the `seasons` field of the embedded entry, and a missing `series_content`
  behaves exactly like the empty list (both are falsy in
  `mark_as_watched`).
-/

namespace Watchlog

/-- A row of the `seasons` table (`src/models/seasons.py`): `series_id`,
`number`, `episodes_count`. -/
structure Season where
  seriesId : Int
  number : Int
  episodesCount : Int
  deriving Repr, DecidableEq

/-- A row of the `movies` table (`src/models/movie.py`); only the fields the
claims need. -/
structure Movie where
  id : Int
  title : String
  deriving Repr, DecidableEq

/-- A row of the `series` table (`src/models/series.py`); only the fields the
claims need. -/
structure SeriesRow where
  id : Int
  title : String
  totalSeasons : Int
  deriving Repr, DecidableEq

/-- A row of the `watch_entries` table (`src/models/watch_entry.py`),
together with the live season list of the referenced series
(`series_content.seasons`; `[]` also models an absent `series_content`). -/
structure WatchEntry where
  userId : Int
  contentType : String
  contentId : Int
  status : String
  currentSeason : Option Int
  currentEpisode : Option Int
  watchedEpisodes : Option Int
  totalEpisodes : Option Int
  seasons : List Season
  updatedAt : Nat
  deriving Repr, DecidableEq

/-- Python `x or 0` for a nullable integer attribute. -/
def orZero : Option Int → Int
  | some v => v
  | none => 0

/-- Errors a route maps to HTTP 500: here only the `TypeError` raised by
comparing `None` with an integer. -/
inductive PyError where
  | typeError
  deriving Repr, DecidableEq

/-- Python `max(s.number for s in seasons)`: maximum season number of a
nonempty list (the `[]` case is unreachable — Python `max` raises there). -/
def maxSeasonNumber : List Season → Int
  | [] => 0
  | [s] => s.number
  | s :: s2 :: rest => max s.number (maxSeasonNumber (s2 :: rest))

/-- Python `next(s.episodes_count for s in seasons if s.number == n)`: the
episode count of the first season in iteration order whose number is `n`
(the `none` case is unreachable when `n` is the maximum of a nonempty
list — Python `next` would raise `StopIteration`). -/
def episodesOfSeasonNumber (l : List Season) (n : Int) : Int :=
  match l.find? (fun s => s.number == n) with
  | some s => s.episodesCount
  | none => 0

/-- `WatchEntry.mark_as_watched` (`src/models/watch_entry.py`, lines 88-103):
sets status to `"watched"`; a movie gets `watched_episodes = 1`; a series
with truthy `total_episodes` gets `watched_episodes = total_episodes` and,
when season data is present, the cursor is moved to the last season and its
episode count; finally `updated_at` is refreshed. -/
def markAsWatched (e : WatchEntry) (now : Nat) : WatchEntry :=
  let e1 := { e with status := "watched" }
  let e2 :=
    if e1.contentType = "movie" then
      { e1 with watchedEpisodes := some 1 }
    else if e1.contentType = "series" ∧ orZero e1.totalEpisodes ≠ 0 then
      let e3 := { e1 with watchedEpisodes := e1.totalEpisodes }
      if e3.seasons = [] then e3
      else
        { e3 with
            currentSeason := some (maxSeasonNumber e3.seasons),
            currentEpisode :=
              some (episodesOfSeasonNumber e3.seasons (maxSeasonNumber e3.seasons)) }
    else e1
  { e2 with updatedAt := now }

/-- `WatchEntry.percentage_watched` (`src/models/watch_entry.py`, lines
74-86), floats modelled as exact rationals. `round2` below is Python
`round(·, 2)` (round half to even at two decimals). -/
def roundHalfEven (q : ℚ) : ℤ :=
  let n := ⌊q⌋
  if q - n < 1 / 2 then n
  else if 1 / 2 < q - n then n + 1
  else if n % 2 = 0 then n else n + 1

/-- Python `round(q, 2)` on the exact-rational model of a float. -/
def round2 (q : ℚ) : ℚ := ((roundHalfEven (q * 100) : ℤ) : ℚ) / 100

/-- `WatchEntry.percentage_watched`: 100.0 when watched, 0.0 when
`total_episodes` is falsy, else `round(min(watched, total)/total*100, 2)`. -/
def percentageWatched (e : WatchEntry) : ℚ :=
  if e.status = "watched" then 100
  else
    match e.totalEpisodes with
    | none => 0
    | some t =>
      if t = 0 then 0
      else round2 (((min (orZero e.watchedEpisodes) t : Int) : ℚ) / (t : ℚ) * 100)

/-- The partial JSON payload of `PATCH /progress/series/<id>`: any subset of
`watched_episodes`, `current_season`, `current_episode`, `status`. -/
structure ProgressPayload where
  watchedEpisodes : Option Int
  currentSeason : Option Int
  currentEpisode : Option Int
  status : Option String
  deriving Repr, DecidableEq

/-- Step 1 of `ProgressService.update_series_progress` (`src/api/progress.py`
lines 111-114): if the payload supplies `watched_episodes`, store
`max(0, min(watched, entry.total_episodes or 0))`. -/
def applyWatchedField (e : WatchEntry) (p : ProgressPayload) : WatchEntry :=
  match p.watchedEpisodes with
  | some w => { e with watchedEpisodes := some (max 0 (min w (orZero e.totalEpisodes))) }
  | none => e

/-- Step 2 (`src/api/progress.py` lines 116-120): `current_season` and
`current_episode` are stored verbatim when supplied. -/
def applyCursorFields (e : WatchEntry) (p : ProgressPayload) : WatchEntry :=
  let e1 :=
    match p.currentSeason with
    | some s => { e with currentSeason := some s }
    | none => e
  match p.currentEpisode with
  | some c => { e1 with currentEpisode := some c }
  | none => e1

/-- Steps 3-4 (`src/api/progress.py` lines 122-126): a supplied status of
`"watched"` triggers `mark_as_watched`; any other supplied status is stored
verbatim. -/
def applyStatusField (e : WatchEntry) (p : ProgressPayload) (now : Nat) : WatchEntry :=
  match p.status with
  | some st => if st = "watched" then markAsWatched e now else { e with status := st }
  | none => e

/-- The payload-application part of `update_series_progress` (steps 1-4). -/
def applyPayload (e : WatchEntry) (p : ProgressPayload) (now : Nat) : WatchEntry :=
  applyStatusField (applyCursorFields (applyWatchedField e p) p) p now

/-- The recomputation block of `update_series_progress` (`src/api/progress.py`
lines 128-135). The guard mirrors Python short-circuiting: the crash
`entry.total_episodes > 0` with `total_episodes = None` (a `TypeError`,
surfaced as HTTP 500) is reached only when
`(watched or 0) >= (total or 0)` already held. -/
def recompute (e : WatchEntry) (now : Nat) : Except PyError WatchEntry :=
  if e.status = "watched" then .ok e
  else if orZero e.totalEpisodes ≤ orZero e.watchedEpisodes then
    match e.totalEpisodes with
    | none => .error PyError.typeError
    | some t =>
      if 0 < t then .ok (markAsWatched e now)
      else if 0 < orZero e.watchedEpisodes then .ok { e with status := "watching" }
      else .ok { e with status := "pending" }
  else if 0 < orZero e.watchedEpisodes then .ok { e with status := "watching" }
  else .ok { e with status := "pending" }

/-- `ProgressService.update_series_progress` on an entry already looked up
(`src/api/progress.py` lines 100-138): apply the payload fields in order,
then recompute the status unless it is already `"watched"`. -/
def updateSeriesProgress (e : WatchEntry) (p : ProgressPayload) (now : Nat) :
    Except PyError WatchEntry :=
  recompute (applyPayload e p now) now

/-- Python `sum(season.episodes_count for season in series.seasons)`. -/
def sumEpisodes (l : List Season) : Int :=
  l.foldl (fun acc s => acc + s.episodesCount) 0

/-- The `WatchEntry` created by `ProgressService.add_movie`
(`src/api/progress.py` lines 60-65 plus `WatchEntry.__init__` and the column
defaults): status pending, `total_episodes = 1`, `watched_episodes = 0`,
cursor defaults `(1, 1)`. A movie has no season data. -/
def newMovieEntry (uid mid : Int) (now : Nat) : WatchEntry :=
  { userId := uid
    contentType := "movie"
    contentId := mid
    status := "pending"
    currentSeason := some 1
    currentEpisode := some 1
    watchedEpisodes := some 0
    totalEpisodes := some 1
    seasons := []
    updatedAt := now }

/-- The `WatchEntry` created by `ProgressService.add_series`
(`src/api/progress.py` lines 83-95): status pending,
`total_episodes = sum of the series' seasons' episodes_count` at call time,
`watched_episodes = 0`, cursor `(1, 1)`. -/
def newSeriesEntry (uid sid : Int) (seasons : List Season) (now : Nat) : WatchEntry :=
  { userId := uid
    contentType := "series"
    contentId := sid
    status := "pending"
    currentSeason := some 1
    currentEpisode := some 1
    watchedEpisodes := some 0
    totalEpisodes := some (sumEpisodes seasons)
    seasons := seasons
    updatedAt := now }

/-- The `filter_by(user_id=…, content_type=…, content_id=…)` lookup used by
the watchlist services. -/
def entryMatches (uid : Int) (ctype : String) (cid : Int) (e : WatchEntry) : Bool :=
  e.userId == uid && e.contentType == ctype && e.contentId == cid

/-- Substring test (Python `needle in haystack`) on character lists. -/
def charsContain (needle : List Char) : List Char → Bool
  | [] => needle.isEmpty
  | c :: rest => needle.isPrefixOf (c :: rest) || charsContain needle rest

/-- Python `needle in haystack` on strings. -/
def strContains (hay needle : String) : Bool :=
  charsContain needle.toList hay.toList

/-- `ProgressService.add_movie` (`src/api/progress.py` lines 47-68): the
movie must exist, the `(user, movie)` pair must not already be tracked;
otherwise the new entry is created. Raised `ValueError` messages are the
`Except` error values. -/
def addMovieService (mov : Option Movie) (entries : List WatchEntry)
    (uid mid : Int) (now : Nat) : Except String WatchEntry :=
  match mov with
  | none => .error ("Pelicula con id " ++ toString mid ++ " no encontrada.")
  | some _ =>
    if (entries.find? (entryMatches uid "movie" mid)).isSome then
      .error "Pelicula ya esta en la watchlist."
    else
      .ok (newMovieEntry uid mid now)

/-- `ProgressService.add_series` (`src/api/progress.py` lines 70-98). -/
def addSeriesService (ser : Option SeriesRow) (seasons : List Season)
    (entries : List WatchEntry) (uid sid : Int) (now : Nat) :
    Except String WatchEntry :=
  match ser with
  | none => .error ("Serie con id " ++ toString sid ++ " no encontrada.")
  | some _ =>
    if (entries.find? (entryMatches uid "series" sid)).isSome then
      .error "Serie ya esta en la watchlist."
    else
      .ok (newSeriesEntry uid sid seasons now)

/-- The route `POST /watchlist/movies/<id>` (`src/api/progress.py` lines
156-169): 201 on success appending the entry, else 404 when the message
contains `"no encontrada"`, else 409; failures leave the store unchanged. -/
def addMovieRoute (mov : Option Movie) (entries : List WatchEntry)
    (uid mid : Int) (now : Nat) : Nat × List WatchEntry :=
  match addMovieService mov entries uid mid now with
  | .ok e => (201, entries ++ [e])
  | .error msg => (if strContains msg "no encontrada" then 404 else 409, entries)

/-- The route `POST /watchlist/series/<id>` (`src/api/progress.py` lines
172-185): same error mapping as the movie route. -/
def addSeriesRoute (ser : Option SeriesRow) (seasons : List Season)
    (entries : List WatchEntry) (uid sid : Int) (now : Nat) :
    Nat × List WatchEntry :=
  match addSeriesService ser seasons entries uid sid now with
  | .ok e => (201, entries ++ [e])
  | .error msg => (if strContains msg "no encontrada" then 404 else 409, entries)

/-- `SeriesService.add_season` (`src/api/series.py` lines 95-119): series
must exist, `number` and `episodes_count` must be supplied, and no season
with the same `(series_id, number)` may already exist. -/
def addSeasonService (ser : Option SeriesRow) (store : List Season)
    (sid : Int) (pnumber pepisodes : Option Int) : Except String Season :=
  match ser with
  | none => .error ("La serie con id " ++ toString sid ++ " no existe.")
  | some _ =>
    match pnumber, pepisodes with
    | some n, some ec =>
      if (store.find? (fun s => s.seriesId == sid && s.number == n)).isSome then
        .error ("La temporada " ++ toString n ++ " ya existe para esta serie.")
      else
        .ok { seriesId := sid, number := n, episodesCount := ec }
    | _, _ => .error "Los campos number y episodes_count son obligatorios."

/-- The route `POST /series/<id>/seasons` (`src/api/series.py` lines
193-207): 201 on success appending the season; on `ValueError`, 404 when the
message contains `"no existe"`, otherwise 400 (the route's own comment says
a duplicate season yields 400). -/
def addSeasonRoute (ser : Option SeriesRow) (store : List Season)
    (sid : Int) (pnumber pepisodes : Option Int) : Nat × List Season :=
  match addSeasonService ser store sid pnumber pepisodes with
  | .ok s => (201, store ++ [s])
  | .error msg => (if strContains msg "no existe" then 404 else 400, store)

/-- The `require_user_id` decorator (`src/api/progress.py` lines 17-29) on
the already-parsed header: `request.headers.get("X-User-Id", type=int)`
yields `none` when the header is absent or not parseable as an integer, and
`if not user_id` aborts with 401 when the value is `None` or `0`. The
result is the `user_id` passed on to the route, or `none` for a 401 abort
before any service logic runs. -/
def requireUserId (header : Option Int) : Option Int :=
  match header with
  | none => none
  | some v => if v = 0 then none else some v

/-- Replace the live season list seen through `series_content.seasons`
(seasons may be added to the catalog after the entry was created). -/
def setSeasons (e : WatchEntry) (ss : List Season) : WatchEntry :=
  { e with seasons := ss }

/-- The watch entries reachable through the watchlist operations: created by
`add_movie` or `add_series`, or obtained from a reachable series entry by a
successful `update_series_progress` (run against whatever season list the
catalog holds at that moment). -/
inductive ReachableEntry : WatchEntry → Prop where
  | movie (uid mid : Int) (now : Nat) : ReachableEntry (newMovieEntry uid mid now)
  | series (uid sid : Int) (seasons : List Season) (now : Nat) :
      ReachableEntry (newSeriesEntry uid sid seasons now)
  | progress {e e' : WatchEntry} (ss : List Season) (p : ProgressPayload) (now : Nat) :
      ReachableEntry e → e.contentType = "series" →
      updateSeriesProgress (setSeasons e ss) p now = .ok e' →
      ReachableEntry e'

/-! ## Helper lemmas -/

theorem charsContain_subset {nd hay : List Char} (h : charsContain nd hay = true) :
    ∀ c ∈ nd, c ∈ hay := by
  induction hay with
  | nil =>
    intro c hc
    simp only [charsContain, List.isEmpty_iff] at h
    subst h
    cases hc
  | cons x rest ih =>
    intro c hc
    simp only [charsContain, Bool.or_eq_true] at h
    rcases h with h | h
    · exact (List.isPrefixOf_iff_prefix.mp h).subset hc
    · exact List.mem_cons_of_mem x (ih h c hc)

theorem digitChar_ne_n (m : Nat) : Nat.digitChar m ≠ 'n' := by
  rcases m with _|_|_|_|_|_|_|_|_|_|_|_|_|_|_|_|k <;> simp [Nat.digitChar]

theorem toDigitsCore_chars (b f : Nat) :
    ∀ (n : Nat) (acc : List Char) (c : Char), c ∈ Nat.toDigitsCore b f n acc →
      c ∈ acc ∨ ∃ m, c = Nat.digitChar m := by
  induction f with
  | zero => intro n acc c h; exact Or.inl h
  | succ f ih =>
    intro n acc c h
    unfold Nat.toDigitsCore at h
    by_cases hd : n / b = 0
    · simp only [hd, if_true] at h
      rcases List.mem_cons.mp h with h2 | h2
      · exact Or.inr ⟨n % b, h2⟩
      · exact Or.inl h2
    · simp only [hd, if_false] at h
      rcases ih (n / b) (Nat.digitChar (n % b) :: acc) c h with h2 | h2
      · rcases List.mem_cons.mp h2 with h3 | h3
        · exact Or.inr ⟨n % b, h3⟩
        · exact Or.inl h3
      · exact Or.inr h2

theorem char_n_notin_nat_repr (n : Nat) : 'n' ∉ (Nat.repr n).data := by
  intro hmem
  have h2 : 'n' ∈ Nat.toDigitsCore 10 (n + 1) n [] := hmem
  rcases toDigitsCore_chars 10 (n + 1) n [] 'n' h2 with h3 | ⟨m, h3⟩
  · cases h3
  · exact digitChar_ne_n m h3.symm

theorem char_n_notin_int_toString (i : Int) : 'n' ∉ (toString i).data := by
  cases i with
  | ofNat m => exact char_n_notin_nat_repr m
  | negSucc m =>
    intro hmem
    have hts : toString (Int.negSucc m) = "-" ++ Nat.repr (m + 1) := rfl
    rw [hts, String.data_append] at hmem
    rcases List.mem_append.mp hmem with h | h
    · simp at h
    · exact char_n_notin_nat_repr (m + 1) h

/-- The duplicate-season message never contains the substring `"no existe"`
(its only letters apart from the season number are those of
`"La temporada … ya existe para esta serie."`, which has no `n`, and the
decimal rendering of an integer has no `n` either). -/
theorem dup_season_msg_not_404 (n : Int) :
    strContains ("La temporada " ++ toString n ++ " ya existe para esta serie.") "no existe"
      = false := by
  cases hb : strContains ("La temporada " ++ toString n ++ " ya existe para esta serie.")
      "no existe" with
  | false => rfl
  | true =>
    exfalso
    have hmem : 'n' ∈ ("La temporada " ++ toString n ++ " ya existe para esta serie.").toList :=
      charsContain_subset hb 'n' (by decide)
    rw [show ("La temporada " ++ toString n ++ " ya existe para esta serie.").toList
        = ("La temporada ").data ++ (toString n).data ++ (" ya existe para esta serie.").data by
      simp [String.toList, String.data_append]] at hmem
    rcases List.mem_append.mp hmem with h | h
    · rcases List.mem_append.mp h with h2 | h2
      · revert h2; decide
      · exact char_n_notin_int_toString n h2
    · revert h; decide

theorem orZero_some (t : Int) : orZero (some t) = t := rfl

theorem maxSeasonNumber_le : ∀ l : List Season, ∀ s ∈ l, s.number ≤ maxSeasonNumber l := by
  intro l
  induction l with
  | nil => intro s hs; cases hs
  | cons a rest ih =>
    intro s hs
    cases rest with
    | nil =>
      rw [List.mem_singleton.mp hs]
      exact le_refl _
    | cons b rest2 =>
      rcases List.mem_cons.mp hs with h | h
      · rw [h]; exact le_max_left _ _
      · exact le_trans (ih s h) (le_max_right _ _)

theorem maxSeasonNumber_mem : ∀ l : List Season, l ≠ [] →
    ∃ s ∈ l, s.number = maxSeasonNumber l := by
  intro l
  induction l with
  | nil => intro h; exact absurd rfl h
  | cons a rest ih =>
    intro _
    cases rest with
    | nil => exact ⟨a, List.mem_singleton_self a, rfl⟩
    | cons b rest2 =>
      rcases ih (by simp) with ⟨u, hu, hmax⟩
      by_cases hab : maxSeasonNumber (b :: rest2) ≤ a.number
      · exact ⟨a, List.mem_cons_self a _, (max_eq_left hab).symm⟩
      · exact ⟨u, List.mem_cons_of_mem a hu,
          hmax.trans (max_eq_right (le_of_not_le hab)).symm⟩

/-- With `s` a season of maximal number and season numbers unique,
`maxSeasonNumber` is `s.number` and the episode lookup returns
`s.episodesCount`. -/
theorem maxSeason_lookup (l : List Season) (s : Season) (hs : s ∈ l)
    (hmax : ∀ s2 ∈ l, s2.number ≤ s.number)
    (hnd : (l.map Season.number).Nodup) :
    maxSeasonNumber l = s.number ∧ episodesOfSeasonNumber l (maxSeasonNumber l)
      = s.episodesCount := by
  have hne : l ≠ [] := by intro h; rw [h] at hs; cases hs
  rcases maxSeasonNumber_mem l hne with ⟨u, hu, humax⟩
  have h1 : maxSeasonNumber l = s.number :=
    le_antisymm (humax ▸ hmax u hu) (maxSeasonNumber_le l s hs)
  refine ⟨h1, ?_⟩
  unfold episodesOfSeasonNumber
  have hfind : (l.find? (fun s2 => s2.number == maxSeasonNumber l)).isSome := by
    rw [List.find?_isSome]
    exact ⟨s, hs, by simp [h1]⟩
  rcases Option.isSome_iff_exists.mp hfind with ⟨v, hv⟩
  have hvmem : v ∈ l := List.mem_of_find?_eq_some hv
  have hvnum : v.number = s.number := by
    have := List.find?_some hv
    simpa [h1] using this
  have : v = s := List.inj_on_of_nodup_map hnd hvmem hs hvnum
  rw [hv, this]

theorem markAsWatched_status (e : WatchEntry) (now : Nat) :
    (markAsWatched e now).status = "watched" := by
  unfold markAsWatched
  dsimp only
  split_ifs <;> rfl

theorem markAsWatched_totalEpisodes (e : WatchEntry) (now : Nat) :
    (markAsWatched e now).totalEpisodes = e.totalEpisodes := by
  unfold markAsWatched
  dsimp only
  split_ifs <;> rfl

theorem applyPayload_totalEpisodes (e : WatchEntry) (p : ProgressPayload) (now : Nat) :
    (applyPayload e p now).totalEpisodes = e.totalEpisodes := by
  unfold applyPayload applyStatusField applyCursorFields applyWatchedField
  rcases p with ⟨pw, pcs, pce, pst⟩
  cases pw <;> cases pcs <;> cases pce <;> cases pst <;> dsimp only <;>
    first
      | rfl
      | (split_ifs <;> first | rfl | apply markAsWatched_totalEpisodes)

theorem markAsWatched_contentType (e : WatchEntry) (now : Nat) :
    (markAsWatched e now).contentType = e.contentType := by
  unfold markAsWatched
  dsimp only
  split_ifs <;> rfl

theorem markAsWatched_seasons (e : WatchEntry) (now : Nat) :
    (markAsWatched e now).seasons = e.seasons := by
  unfold markAsWatched
  dsimp only
  split_ifs <;> rfl

/-- `mark_as_watched` on a series entry with truthy `total_episodes`: forces
`watched_episodes = total_episodes`. -/
theorem markAsWatched_watchedEpisodes_series {e : WatchEntry} {now : Nat} {t : Int}
    (hc : e.contentType = "series") (ht : e.totalEpisodes = some t) (hne : t ≠ 0) :
    (markAsWatched e now).watchedEpisodes = some t := by
  unfold markAsWatched
  dsimp only
  rw [if_neg (by simp [hc]), if_pos ⟨hc, by simp [ht, orZero, hne]⟩]
  split_ifs <;> simp [ht]

/-- `mark_as_watched` on a series entry with truthy `total_episodes` and
nonempty season data: the full terminal transition. -/
theorem markAsWatched_series_seasons {e : WatchEntry} {now : Nat} {t : Int}
    (hc : e.contentType = "series") (ht : e.totalEpisodes = some t) (hne : t ≠ 0)
    (hs : e.seasons ≠ []) :
    markAsWatched e now =
      { e with
          status := "watched"
          watchedEpisodes := some t
          currentSeason := some (maxSeasonNumber e.seasons)
          currentEpisode := some (episodesOfSeasonNumber e.seasons (maxSeasonNumber e.seasons))
          updatedAt := now } := by
  unfold markAsWatched
  dsimp only
  rw [if_neg (by simp [hc]), if_pos ⟨hc, by simp [ht, orZero, hne]⟩, if_neg hs, ht]

theorem applyWatchedField_status (e : WatchEntry) (p : ProgressPayload) :
    (applyWatchedField e p).status = e.status := by
  unfold applyWatchedField
  cases p.watchedEpisodes <;> rfl

theorem applyWatchedField_contentType (e : WatchEntry) (p : ProgressPayload) :
    (applyWatchedField e p).contentType = e.contentType := by
  unfold applyWatchedField
  cases p.watchedEpisodes <;> rfl

theorem applyWatchedField_seasons (e : WatchEntry) (p : ProgressPayload) :
    (applyWatchedField e p).seasons = e.seasons := by
  unfold applyWatchedField
  cases p.watchedEpisodes <;> rfl

theorem applyWatchedField_totalEpisodes (e : WatchEntry) (p : ProgressPayload) :
    (applyWatchedField e p).totalEpisodes = e.totalEpisodes := by
  unfold applyWatchedField
  cases p.watchedEpisodes <;> rfl

theorem applyCursorFields_watchedEpisodes (e : WatchEntry) (p : ProgressPayload) :
    (applyCursorFields e p).watchedEpisodes = e.watchedEpisodes := by
  unfold applyCursorFields
  cases p.currentSeason <;> cases p.currentEpisode <;> rfl

theorem applyCursorFields_status (e : WatchEntry) (p : ProgressPayload) :
    (applyCursorFields e p).status = e.status := by
  unfold applyCursorFields
  cases p.currentSeason <;> cases p.currentEpisode <;> rfl

theorem applyCursorFields_contentType (e : WatchEntry) (p : ProgressPayload) :
    (applyCursorFields e p).contentType = e.contentType := by
  unfold applyCursorFields
  cases p.currentSeason <;> cases p.currentEpisode <;> rfl

theorem applyCursorFields_seasons (e : WatchEntry) (p : ProgressPayload) :
    (applyCursorFields e p).seasons = e.seasons := by
  unfold applyCursorFields
  cases p.currentSeason <;> cases p.currentEpisode <;> rfl

theorem applyCursorFields_totalEpisodes (e : WatchEntry) (p : ProgressPayload) :
    (applyCursorFields e p).totalEpisodes = e.totalEpisodes := by
  unfold applyCursorFields
  cases p.currentSeason <;> cases p.currentEpisode <;> rfl

/-- When the payload supplies `watched_episodes`, the value stored by the
clamping step survives steps 2-4 unchanged unless the supplied status is
`"watched"`. -/
theorem applyPayload_watchedEpisodes_no_watch {e : WatchEntry} {p : ProgressPayload} {now : Nat}
    (hst : p.status ≠ some "watched") :
    (applyPayload e p now).watchedEpisodes = (applyWatchedField e p).watchedEpisodes := by
  unfold applyPayload applyStatusField
  cases hp : p.status with
  | none => exact applyCursorFields_watchedEpisodes _ _
  | some st =>
    dsimp only
    rw [if_neg (by intro h; rw [h] at hp; exact hst hp)]
    exact applyCursorFields_watchedEpisodes _ _

theorem applyPayload_contentType (e : WatchEntry) (p : ProgressPayload) (now : Nat) :
    (applyPayload e p now).contentType = e.contentType := by
  unfold applyPayload applyStatusField
  cases p.status with
  | none => rw [applyCursorFields_contentType, applyWatchedField_contentType]
  | some st =>
    dsimp only
    split_ifs
    · rw [markAsWatched_contentType, applyCursorFields_contentType,
        applyWatchedField_contentType]
    · rw [applyCursorFields_contentType, applyWatchedField_contentType]

theorem applyPayload_seasons (e : WatchEntry) (p : ProgressPayload) (now : Nat) :
    (applyPayload e p now).seasons = e.seasons := by
  unfold applyPayload applyStatusField
  cases p.status with
  | none => rw [applyCursorFields_seasons, applyWatchedField_seasons]
  | some st =>
    dsimp only
    split_ifs
    · rw [markAsWatched_seasons, applyCursorFields_seasons, applyWatchedField_seasons]
    · rw [applyCursorFields_seasons, applyWatchedField_seasons]

/-- Recomputation never fails when `total_episodes` is an actual integer
(the `TypeError` needs `total_episodes = None`). -/
theorem recompute_isOk {e : WatchEntry} {now : Nat} {t : Int} (ht : e.totalEpisodes = some t) :
    ∃ e', recompute e now = .ok e' := by
  unfold recompute
  rw [ht]
  dsimp only
  split_ifs <;> exact ⟨_, rfl⟩

theorem recompute_totalEpisodes {e e' : WatchEntry} {now : Nat}
    (h : recompute e now = .ok e') : e'.totalEpisodes = e.totalEpisodes := by
  unfold recompute at h
  repeat' split at h
  all_goals cases h
  all_goals first | rfl | apply markAsWatched_totalEpisodes

theorem updateSeriesProgress_totalEpisodes {e e' : WatchEntry} {p : ProgressPayload} {now : Nat}
    (h : updateSeriesProgress e p now = .ok e') : e'.totalEpisodes = e.totalEpisodes := by
  unfold updateSeriesProgress at h
  rw [recompute_totalEpisodes h, applyPayload_totalEpisodes]

/-- Branch structure of the recomputation block, for an entry whose
`total_episodes` is an actual integer `t`. -/
theorem recompute_rules (a : WatchEntry) (now : Nat) (t : Int)
    (ht : a.totalEpisodes = some t) :
    (a.status = "watched" → recompute a now = .ok a) ∧
    (a.status ≠ "watched" →
      (t ≤ orZero a.watchedEpisodes ∧ 0 < t → recompute a now = .ok (markAsWatched a now)) ∧
      (¬(t ≤ orZero a.watchedEpisodes ∧ 0 < t) → 0 < orZero a.watchedEpisodes →
        recompute a now = .ok { a with status := "watching" }) ∧
      (¬(t ≤ orZero a.watchedEpisodes ∧ 0 < t) → orZero a.watchedEpisodes ≤ 0 →
        recompute a now = .ok { a with status := "pending" })) := by
  unfold recompute
  rw [ht]
  dsimp only
  simp only [orZero_some]
  refine ⟨fun h => by rw [if_pos h], fun h => ⟨?_, ?_, ?_⟩⟩
  · rintro ⟨h1, h2⟩
    rw [if_neg h, if_pos h1, if_pos h2]
  · intro hn hw
    by_cases h1 : t ≤ orZero a.watchedEpisodes
    · have h2 : ¬ 0 < t := fun h2 => hn ⟨h1, h2⟩
      rw [if_neg h, if_pos h1, if_neg h2, if_pos hw]
    · rw [if_neg h, if_neg h1, if_pos hw]
  · intro hn hw
    have hw2 : ¬ 0 < orZero a.watchedEpisodes := not_lt.mpr hw
    by_cases h1 : t ≤ orZero a.watchedEpisodes
    · have h2 : ¬ 0 < t := fun h2 => hn ⟨h1, h2⟩
      rw [if_neg h, if_pos h1, if_neg h2, if_neg hw2]
    · rw [if_neg h, if_neg h1, if_neg hw2]

/-- A successful recomputation on a series entry whose `watched_episodes`
is at most `total_episodes` leaves `watched_episodes` unchanged (the only
branch that writes it, the terminal transition, writes exactly the current
value there). -/
theorem recompute_ok_watchedEpisodes_le {a e' : WatchEntry} {now : Nat} {t c : Int}
    (hC : a.contentType = "series") (ht : a.totalEpisodes = some t)
    (hw : a.watchedEpisodes = some c) (hct : c ≤ t)
    (h : recompute a now = .ok e') : e'.watchedEpisodes = some c := by
  unfold recompute at h
  rw [ht, hw] at h
  dsimp only at h
  simp only [orZero_some] at h
  split_ifs at h with h1 h2 h3 h4 h5
  · cases h; exact hw
  · cases h
    rw [markAsWatched_watchedEpisodes_series hC ht (by omega)]
    exact congrArg some (le_antisymm h2 hct)
  · cases h; rfl
  · cases h; rfl
  · cases h; rfl
  · cases h; rfl

/-! ## Claim C1 -/

/-- C1: a progress update whose payload carries `status == "watched"`, on a
series entry with a positive `total_episodes`, triggers the terminal
transition: the final status is watched, `watched_episodes` is forced to
`total_episodes` (whatever the payload supplied), and when the series has
season data the cursor moves to the highest-numbered season (`s` below) and
its episode count (season numbers are unique per series by the
`uq_series_season_number` constraint, whence the `Nodup` hypothesis). -/
theorem C1_watched_payload_terminal (e : WatchEntry) (p : ProgressPayload) (now : Nat) (t : Int)
    (hc : e.contentType = "series") (ht : e.totalEpisodes = some t) (htpos : 0 < t)
    (hst : p.status = some "watched") :
    ∃ e', updateSeriesProgress e p now = .ok e' ∧
      e'.status = "watched" ∧ e'.watchedEpisodes = some t ∧
      ∀ s ∈ e.seasons, (∀ s2 ∈ e.seasons, s2.number ≤ s.number) →
        (e.seasons.map Season.number).Nodup →
        e'.currentSeason = some s.number ∧ e'.currentEpisode = some s.episodesCount := by
  set b := applyCursorFields (applyWatchedField e p) p with hb
  have hbc : b.contentType = "series" := by
    rw [hb, applyCursorFields_contentType, applyWatchedField_contentType, hc]
  have hbt : b.totalEpisodes = some t := by
    rw [hb, applyCursorFields_totalEpisodes, applyWatchedField_totalEpisodes, ht]
  have hbs : b.seasons = e.seasons := by
    rw [hb, applyCursorFields_seasons, applyWatchedField_seasons]
  have ha : applyPayload e p now = markAsWatched b now := by
    unfold applyPayload applyStatusField
    rw [hst]
    dsimp only
    rw [if_pos rfl]
  have hstatus : (markAsWatched b now).status = "watched" := markAsWatched_status b now
  have hrec : updateSeriesProgress e p now = .ok (markAsWatched b now) := by
    unfold updateSeriesProgress
    rw [ha]
    unfold recompute
    rw [if_pos hstatus]
  refine ⟨markAsWatched b now, hrec, hstatus,
    markAsWatched_watchedEpisodes_series hbc hbt (by omega), ?_⟩
  intro s hs hmax hnd
  have hne : e.seasons ≠ [] := by intro h; rw [h] at hs; cases hs
  have hm := @markAsWatched_series_seasons b now t hbc hbt (by omega)
    (by rw [hbs]; exact hne)
  rcases maxSeason_lookup e.seasons s hs hmax hnd with ⟨h1, h2⟩
  rw [hm]
  simp only [hbs]
  exact ⟨congrArg some h1, congrArg some h2⟩

/-- Sample data shared by the witnesses: the spec scenario of a series with
seasons `[(1, 10), (2, 8)]` freshly added to the watchlist. -/
def sampleSeasons : List Season := [⟨5, 1, 10⟩, ⟨5, 2, 8⟩]

/-- The entry `add_series` creates for the sample series. -/
def sampleEntry : WatchEntry := newSeriesEntry 1 5 sampleSeasons 0

/-- Witness for C1: PATCH `{watched_episodes: 3, status: "watched"}` on the
sample entry. -/
theorem C1_watched_payload_terminal_witness :
    ∃ e', updateSeriesProgress sampleEntry ⟨some 3, none, none, some "watched"⟩ 7 = .ok e' ∧
      e'.status = "watched" ∧ e'.watchedEpisodes = some 18 ∧
      ∀ s ∈ sampleEntry.seasons, (∀ s2 ∈ sampleEntry.seasons, s2.number ≤ s.number) →
        (sampleEntry.seasons.map Season.number).Nodup →
        e'.currentSeason = some s.number ∧ e'.currentEpisode = some s.episodesCount :=
  C1_watched_payload_terminal sampleEntry ⟨some 3, none, none, some "watched"⟩ 7 18
    rfl rfl (by decide) rfl

/-! ## Claim C2 -/

/-- C2: after the payload fields are applied, recomputation is skipped
exactly when the resulting status is `"watched"`; otherwise it marks the
entry watched (via the terminal transition) when
`watched_episodes ≥ total_episodes > 0`, sets `"watching"` when
`watched_episodes > 0`, and `"pending"` otherwise. -/
theorem C2_recompute_after_payload (e : WatchEntry) (p : ProgressPayload) (now : Nat) (t : Int)
    (_hc : e.contentType = "series")
    (ht : (applyPayload e p now).totalEpisodes = some t) :
    ((applyPayload e p now).status = "watched" →
      updateSeriesProgress e p now = .ok (applyPayload e p now)) ∧
    ((applyPayload e p now).status ≠ "watched" →
      (t ≤ orZero (applyPayload e p now).watchedEpisodes ∧ 0 < t →
        updateSeriesProgress e p now = .ok (markAsWatched (applyPayload e p now) now)) ∧
      (¬(t ≤ orZero (applyPayload e p now).watchedEpisodes ∧ 0 < t) →
        0 < orZero (applyPayload e p now).watchedEpisodes →
        updateSeriesProgress e p now = .ok { applyPayload e p now with status := "watching" }) ∧
      (¬(t ≤ orZero (applyPayload e p now).watchedEpisodes ∧ 0 < t) →
        orZero (applyPayload e p now).watchedEpisodes ≤ 0 →
        updateSeriesProgress e p now = .ok { applyPayload e p now with status := "pending" })) :=
  recompute_rules (applyPayload e p now) now t ht

/-- Witness for C2: PATCH `{watched_episodes: 18}` on the sample entry ends
in the terminal transition through recomputation. -/
theorem C2_recompute_after_payload_witness :
    updateSeriesProgress sampleEntry ⟨some 18, none, none, none⟩ 7 =
      .ok (markAsWatched (applyPayload sampleEntry ⟨some 18, none, none, none⟩ 7) 7) :=
  ((C2_recompute_after_payload sampleEntry ⟨some 18, none, none, none⟩ 7 18 rfl rfl).2
    (by decide)).1 (by decide)

/-! ## Claim C3 -/

/-- C3: a payload carrying `watched_episodes = w` stores
`max(0, min(w, total_episodes or 0))` — out-of-range values are silently
clamped, a missing `total_episodes` is treated as 0 — and, for an entry
whose `total_episodes` is an actual nonnegative integer, the update always
succeeds (nothing is rejected) and the clamped value is also the final
stored value whenever the payload does not additionally set status
`"watched"` (in which case C1's terminal transition overwrites it). -/
theorem C3_watched_episodes_clamped (e : WatchEntry) (p : ProgressPayload) (now : Nat) (w : Int)
    (hc : e.contentType = "series") (hw : p.watchedEpisodes = some w) :
    (applyWatchedField e p).watchedEpisodes
      = some (max 0 (min w (orZero e.totalEpisodes))) ∧
    ∀ t, e.totalEpisodes = some t → 0 ≤ t →
      ∃ e', updateSeriesProgress e p now = .ok e' ∧
        (p.status ≠ some "watched" → e'.watchedEpisodes = some (max 0 (min w t))) := by
  constructor
  · unfold applyWatchedField
    rw [hw]
  · intro t ht h0
    have hat : (applyPayload e p now).totalEpisodes = some t := by
      rw [applyPayload_totalEpisodes, ht]
    rcases @recompute_isOk (applyPayload e p now) now t hat with ⟨e', he'⟩
    refine ⟨e', he', fun hst => ?_⟩
    have hac : (applyPayload e p now).contentType = "series" := by
      rw [applyPayload_contentType, hc]
    have hclamp : (applyPayload e p now).watchedEpisodes = some (max 0 (min w t)) := by
      rw [applyPayload_watchedEpisodes_no_watch hst]
      unfold applyWatchedField
      rw [hw, ht]
      simp [orZero]
    have hle : max 0 (min w t) ≤ t := by omega
    exact recompute_ok_watchedEpisodes_le hac hat hclamp hle he'

/-- Witness for C3: PATCH `{watched_episodes: 25}` on the sample entry
(total 18) clamps to 18. -/
theorem C3_watched_episodes_clamped_witness :
    (applyWatchedField sampleEntry ⟨some 25, none, none, none⟩).watchedEpisodes
      = some (max 0 (min 25 (orZero sampleEntry.totalEpisodes))) ∧
    ∃ e', updateSeriesProgress sampleEntry ⟨some 25, none, none, none⟩ 7 = .ok e' ∧
      ((⟨some 25, none, none, none⟩ : ProgressPayload).status ≠ some "watched" →
        e'.watchedEpisodes = some (max 0 (min 25 18))) :=
  ⟨(C3_watched_episodes_clamped sampleEntry ⟨some 25, none, none, none⟩ 7 25 rfl rfl).1,
    (C3_watched_episodes_clamped sampleEntry ⟨some 25, none, none, none⟩ 7 25 rfl rfl).2
      18 rfl (by decide)⟩

/-! ## Claim C5 -/

theorem applyWatchedField_id {e : WatchEntry} {p : ProgressPayload}
    (hw : p.watchedEpisodes = none) : applyWatchedField e p = e := by
  unfold applyWatchedField
  rw [hw]

theorem applyWatchedField_currentSeason (e : WatchEntry) (p : ProgressPayload) :
    (applyWatchedField e p).currentSeason = e.currentSeason := by
  unfold applyWatchedField
  cases p.watchedEpisodes <;> rfl

theorem applyWatchedField_currentEpisode (e : WatchEntry) (p : ProgressPayload) :
    (applyWatchedField e p).currentEpisode = e.currentEpisode := by
  unfold applyWatchedField
  cases p.watchedEpisodes <;> rfl

theorem applyCursorFields_id {e : WatchEntry} {p : ProgressPayload}
    (h1 : p.currentSeason = none) (h2 : p.currentEpisode = none) :
    applyCursorFields e p = e := by
  unfold applyCursorFields
  rw [h1, h2]

theorem applyStatusField_id {e : WatchEntry} {p : ProgressPayload} {now : Nat}
    (hst : p.status = none) : applyStatusField e p now = e := by
  unfold applyStatusField
  rw [hst]

theorem applyStatusField_some_ne {e : WatchEntry} {p : ProgressPayload} {now : Nat} {s : String}
    (hst : p.status = some s) (hne : s ≠ "watched") :
    applyStatusField e p now = { e with status := s } := by
  unfold applyStatusField
  rw [hst]
  dsimp only
  rw [if_neg hne]

theorem applyStatusField_watched {e : WatchEntry} {p : ProgressPayload} {now : Nat}
    (hst : p.status = some "watched") :
    applyStatusField e p now = markAsWatched e now := by
  unfold applyStatusField
  rw [hst]
  dsimp only
  rw [if_pos rfl]

/-- Fields other than `status` (and the fields the terminal transition
writes) survive the status step when the supplied status is not
`"watched"`. -/
theorem applyStatusField_ne_watched {e : WatchEntry} {p : ProgressPayload} {now : Nat}
    (hst : p.status ≠ some "watched") :
    (applyStatusField e p now).watchedEpisodes = e.watchedEpisodes ∧
    (applyStatusField e p now).currentSeason = e.currentSeason ∧
    (applyStatusField e p now).currentEpisode = e.currentEpisode := by
  unfold applyStatusField
  cases hps : p.status with
  | none => exact ⟨rfl, rfl, rfl⟩
  | some s =>
    dsimp only
    rw [if_neg (fun h => hst (by rw [hps, h]))]
    exact ⟨rfl, rfl, rfl⟩

/-- `mark_as_watched` on a series entry whose `total_episodes` is falsy only
flips the status and the timestamp. -/
theorem markAsWatched_series_total_zero {e : WatchEntry} {now : Nat}
    (hc : e.contentType = "series") (ht : orZero e.totalEpisodes = 0) :
    markAsWatched e now = { e with status := "watched", updatedAt := now } := by
  unfold markAsWatched
  dsimp only
  rw [if_neg (by simp [hc]), if_neg (by rintro ⟨-, hne⟩; exact hne ht)]

/-- `mark_as_watched` on a series entry with truthy `total_episodes` but no
season data: only `watched_episodes`, status and timestamp change. -/
theorem markAsWatched_series_no_seasons {e : WatchEntry} {now : Nat} {t : Int}
    (hc : e.contentType = "series") (ht : e.totalEpisodes = some t) (hne : t ≠ 0)
    (hs : e.seasons = []) :
    markAsWatched e now =
      { e with status := "watched", watchedEpisodes := some t, updatedAt := now } := by
  unfold markAsWatched
  dsimp only
  rw [if_neg (by simp [hc]), if_pos ⟨hc, by simp [ht, orZero, hne]⟩, if_pos hs, ht]

/-- The two payload-application steps before the status step compute the
same `watched_episodes` from two starting entries with the same
`total_episodes` (and the same `watched_episodes`, when the payload does not
supply one). -/
theorem applyWB_watched_eq (p : ProgressPayload) {x y : WatchEntry}
    (htot : y.totalEpisodes = x.totalEpisodes)
    (hw : p.watchedEpisodes = none → y.watchedEpisodes = x.watchedEpisodes) :
    (applyCursorFields (applyWatchedField y p) p).watchedEpisodes
      = (applyCursorFields (applyWatchedField x p) p).watchedEpisodes := by
  rw [applyCursorFields_watchedEpisodes, applyCursorFields_watchedEpisodes]
  unfold applyWatchedField
  cases hpw : p.watchedEpisodes with
  | none => exact hw hpw
  | some w => simp [htot]

theorem applyPayload_status_none {p : ProgressPayload} (hps : p.status = none)
    (y : WatchEntry) (now2 : Nat) : (applyPayload y p now2).status = y.status := by
  unfold applyPayload
  rw [applyStatusField_id hps, applyCursorFields_status, applyWatchedField_status]

theorem applyPayload_status_some {p : ProgressPayload} {s : String} (hps : p.status = some s)
    (hne : s ≠ "watched") (y : WatchEntry) (now2 : Nat) :
    (applyPayload y p now2).status = s := by
  unfold applyPayload
  rw [applyStatusField_some_ne hps hne]

theorem applyPayload_cursor_id {p : ProgressPayload} (hst : p.status ≠ some "watched")
    (hcs : p.currentSeason = none) (hce : p.currentEpisode = none)
    (y : WatchEntry) (now2 : Nat) :
    (applyPayload y p now2).currentSeason = y.currentSeason ∧
    (applyPayload y p now2).currentEpisode = y.currentEpisode := by
  unfold applyPayload
  constructor
  · rw [(applyStatusField_ne_watched hst).2.1, applyCursorFields_id hcs hce,
      applyWatchedField_currentSeason]
  · rw [(applyStatusField_ne_watched hst).2.2, applyCursorFields_id hcs hce,
      applyWatchedField_currentEpisode]

theorem applyPayload_watched_of_none {p : ProgressPayload} (hst : p.status ≠ some "watched")
    (hpw : p.watchedEpisodes = none) (y : WatchEntry) (now2 : Nat) :
    (applyPayload y p now2).watchedEpisodes = y.watchedEpisodes := by
  unfold applyPayload
  rw [(applyStatusField_ne_watched hst).1, applyCursorFields_watchedEpisodes,
    applyWatchedField_id hpw]

theorem applyPayload_watched_of_some {p : ProgressPayload} {w t : Int}
    (hst : p.status ≠ some "watched") (hpw : p.watchedEpisodes = some w)
    {y : WatchEntry} (hyt : y.totalEpisodes = some t) (now2 : Nat) :
    (applyPayload y p now2).watchedEpisodes = some (max 0 (min w t)) := by
  unfold applyPayload
  rw [(applyStatusField_ne_watched hst).1, applyCursorFields_watchedEpisodes]
  unfold applyWatchedField
  rw [hpw, hyt]
  simp [orZero_some]

/-- A payload whose status is `"watched"` makes the whole update the
terminal transition applied after steps 1-2 (recomputation is skipped). -/
theorem update_eq_mark_of_watched_payload {e : WatchEntry} {p : ProgressPayload} {now : Nat}
    (hst : p.status = some "watched") :
    updateSeriesProgress e p now =
      .ok (markAsWatched (applyCursorFields (applyWatchedField e p) p) now) := by
  have ha : applyPayload e p now
      = markAsWatched (applyCursorFields (applyWatchedField e p) p) now := by
    unfold applyPayload
    rw [applyStatusField_watched hst]
  unfold updateSeriesProgress
  rw [ha]
  unfold recompute
  rw [if_pos (markAsWatched_status _ _)]

/-- C5 counterexample: on a fresh entry for a series with one ten-episode
season, PATCH `{watched_episodes: 10, current_season: 99}` once yields
`current_season = 1` (recomputation marks the entry watched and moves the
cursor to the last season), but applying the same payload a second time
yields `current_season = 99`: the entry is already watched, recomputation is
skipped, and the verbatim payload cursor survives. -/
theorem C5_counterexample :
    updateSeriesProgress (newSeriesEntry 1 5 [⟨5, 1, 10⟩] 0) ⟨some 10, some 99, none, none⟩ 1
      = .ok ⟨1, "series", 5, "watched", some 1, some 10, some 10, some 10, [⟨5, 1, 10⟩], 1⟩ ∧
    updateSeriesProgress
        ⟨1, "series", 5, "watched", some 1, some 10, some 10, some 10, [⟨5, 1, 10⟩], 1⟩
        ⟨some 10, some 99, none, none⟩ 2
      = .ok ⟨1, "series", 5, "watched", some 99, some 10, some 10, some 10, [⟨5, 1, 10⟩], 1⟩ ∧
    (some (1 : Int)) ≠ some 99 := by
  refine ⟨rfl, rfl, by decide⟩

/-- C5 (amended): on a series entry whose `total_episodes` is an actual
integer, applying the same partial update twice always succeeds and leaves
`status` and `watched_episodes` exactly as after one application; the
cursor fields are also unchanged by the second application whenever the
payload supplies neither `current_season` nor `current_episode` (when it
does, the counterexample shows the second application can differ). -/
theorem C5_second_update_same (e : WatchEntry) (p : ProgressPayload) (now now2 : Nat) (t : Int)
    (hc : e.contentType = "series") (ht : e.totalEpisodes = some t) :
    ∃ e1 e2, updateSeriesProgress e p now = .ok e1 ∧ updateSeriesProgress e1 p now2 = .ok e2 ∧
      e2.status = e1.status ∧ e2.watchedEpisodes = e1.watchedEpisodes ∧
      (p.currentSeason = none → p.currentEpisode = none →
        e2.currentSeason = e1.currentSeason ∧ e2.currentEpisode = e1.currentEpisode) := by
  by_cases hst : p.status = some "watched"
  · -- the payload itself triggers the terminal transition, both times
    set b1 := applyCursorFields (applyWatchedField e p) p with hb1
    set e1 := markAsWatched b1 now with he1
    set b2 := applyCursorFields (applyWatchedField e1 p) p with hb2
    set e2 := markAsWatched b2 now2 with he2
    have hb1t : b1.totalEpisodes = some t := by
      rw [hb1, applyCursorFields_totalEpisodes, applyWatchedField_totalEpisodes, ht]
    have hb1c : b1.contentType = "series" := by
      rw [hb1, applyCursorFields_contentType, applyWatchedField_contentType, hc]
    have hb1s : b1.seasons = e.seasons := by
      rw [hb1, applyCursorFields_seasons, applyWatchedField_seasons]
    have he1t : e1.totalEpisodes = some t := by rw [he1, markAsWatched_totalEpisodes, hb1t]
    have he1s : e1.seasons = e.seasons := by rw [he1, markAsWatched_seasons, hb1s]
    have hb2t : b2.totalEpisodes = some t := by
      rw [hb2, applyCursorFields_totalEpisodes, applyWatchedField_totalEpisodes, he1t]
    have hb2c : b2.contentType = "series" := by
      rw [hb2, applyCursorFields_contentType, applyWatchedField_contentType, he1,
        markAsWatched_contentType, hb1c]
    have hb2s : b2.seasons = e.seasons := by
      rw [hb2, applyCursorFields_seasons, applyWatchedField_seasons, he1s]
    refine ⟨e1, e2, update_eq_mark_of_watched_payload hst,
      update_eq_mark_of_watched_payload hst, ?_, ?_, ?_⟩
    · rw [he2, he1, markAsWatched_status, markAsWatched_status]
    · by_cases ht0 : t = 0
      · have hz1 : orZero b1.totalEpisodes = 0 := by rw [hb1t, ht0]; rfl
        have hz2 : orZero b2.totalEpisodes = 0 := by rw [hb2t, ht0]; rfl
        rw [he2, he1, markAsWatched_series_total_zero hb2c hz2,
          markAsWatched_series_total_zero hb1c hz1]
        show b2.watchedEpisodes = b1.watchedEpisodes
        rw [hb2, hb1]
        apply applyWB_watched_eq p (by rw [he1t, ht])
        intro hpw
        rw [he1, markAsWatched_series_total_zero hb1c hz1]
        show b1.watchedEpisodes = e.watchedEpisodes
        rw [hb1, applyCursorFields_watchedEpisodes, applyWatchedField_id hpw]
      · rw [he2, he1, markAsWatched_watchedEpisodes_series hb2c hb2t ht0,
          markAsWatched_watchedEpisodes_series hb1c hb1t ht0]
    · intro hcs hce
      by_cases ht0 : t = 0
      · have hz1 : orZero b1.totalEpisodes = 0 := by rw [hb1t, ht0]; rfl
        have hz2 : orZero b2.totalEpisodes = 0 := by rw [hb2t, ht0]; rfl
        rw [he2, markAsWatched_series_total_zero hb2c hz2]
        constructor
        · show b2.currentSeason = e1.currentSeason
          rw [hb2, applyCursorFields_id hcs hce, applyWatchedField_currentSeason]
        · show b2.currentEpisode = e1.currentEpisode
          rw [hb2, applyCursorFields_id hcs hce, applyWatchedField_currentEpisode]
      · by_cases hse : e.seasons = []
        · rw [he2, markAsWatched_series_no_seasons hb2c hb2t ht0 (by rw [hb2s]; exact hse)]
          constructor
          · show b2.currentSeason = e1.currentSeason
            rw [hb2, applyCursorFields_id hcs hce, applyWatchedField_currentSeason]
          · show b2.currentEpisode = e1.currentEpisode
            rw [hb2, applyCursorFields_id hcs hce, applyWatchedField_currentEpisode]
        · rw [he2, he1, markAsWatched_series_seasons hb2c hb2t ht0 (by rw [hb2s]; exact hse),
            markAsWatched_series_seasons hb1c hb1t ht0 (by rw [hb1s]; exact hse)]
          constructor
          · show some (maxSeasonNumber b2.seasons) = some (maxSeasonNumber b1.seasons)
            rw [hb2s, hb1s]
          · show some (episodesOfSeasonNumber b2.seasons (maxSeasonNumber b2.seasons))
              = some (episodesOfSeasonNumber b1.seasons (maxSeasonNumber b1.seasons))
            rw [hb2s, hb1s]
  · -- the payload does not carry status "watched"
    set a1 := applyPayload e p now with ha1
    have hat : a1.totalEpisodes = some t := by rw [ha1, applyPayload_totalEpisodes, ht]
    have hac : a1.contentType = "series" := by rw [ha1, applyPayload_contentType, hc]
    have has : a1.seasons = e.seasons := by rw [ha1, applyPayload_seasons]
    have haw1 : ∀ w, p.watchedEpisodes = some w →
        a1.watchedEpisodes = some (max 0 (min w t)) := fun w hpw => by
      rw [ha1]; exact applyPayload_watched_of_some hst hpw ht now
    have haw0 : p.watchedEpisodes = none → a1.watchedEpisodes = e.watchedEpisodes :=
      fun hpw => by rw [ha1]; exact applyPayload_watched_of_none hst hpw e now
    by_cases ha1st : a1.status = "watched"
    · -- entry was already watched and the payload has no status field
      have hpsnone : p.status = none := by
        cases hps : p.status with
        | none => rfl
        | some s =>
          exfalso
          have hsne : s ≠ "watched" := fun h => hst (by rw [hps, h])
          exact hsne (by rw [← applyPayload_status_some hps hsne e now, ← ha1, ha1st])
      have h1 : updateSeriesProgress e p now = .ok a1 :=
        (recompute_rules a1 now t hat).1 ha1st
      set a2 := applyPayload a1 p now2 with ha2
      have ha2t : a2.totalEpisodes = some t := by rw [ha2, applyPayload_totalEpisodes, hat]
      have ha2st : a2.status = "watched" := by
        rw [ha2, applyPayload_status_none hpsnone, ha1st]
      have h2 : updateSeriesProgress a1 p now2 = .ok a2 :=
        (recompute_rules a2 now2 t ha2t).1 ha2st
      refine ⟨a1, a2, h1, h2, by rw [ha2st, ha1st], ?_, ?_⟩
      · cases hpw : p.watchedEpisodes with
        | none => rw [ha2, applyPayload_watched_of_none hst hpw]
        | some w => rw [ha2, applyPayload_watched_of_some hst hpw hat now2, haw1 w hpw]
      · intro hcs hce
        rw [ha2]
        exact applyPayload_cursor_id hst hcs hce a1 now2
    · have hr := (recompute_rules a1 now t hat).2 ha1st
      by_cases hmark : t ≤ orZero a1.watchedEpisodes ∧ 0 < t
      · -- first application marks the entry watched through recomputation
        have h1 : updateSeriesProgress e p now = .ok (markAsWatched a1 now) := hr.1 hmark
        set e1 := markAsWatched a1 now with he1
        have he1st : e1.status = "watched" := by rw [he1]; exact markAsWatched_status a1 now
        have he1w : e1.watchedEpisodes = some t := by
          rw [he1]; exact markAsWatched_watchedEpisodes_series hac hat (by omega)
        have he1t : e1.totalEpisodes = some t := by rw [he1, markAsWatched_totalEpisodes, hat]
        have he1c : e1.contentType = "series" := by rw [he1, markAsWatched_contentType, hac]
        have he1s : e1.seasons = e.seasons := by rw [he1, markAsWatched_seasons, has]
        set a2 := applyPayload e1 p now2 with ha2
        have ha2t : a2.totalEpisodes = some t := by rw [ha2, applyPayload_totalEpisodes, he1t]
        have ha2c : a2.contentType = "series" := by rw [ha2, applyPayload_contentType, he1c]
        have ha2s : a2.seasons = e.seasons := by rw [ha2, applyPayload_seasons, he1s]
        have ha2w : a2.watchedEpisodes = some t := by
          cases hpw : p.watchedEpisodes with
          | none => rw [ha2, applyPayload_watched_of_none hst hpw, he1w]
          | some w =>
            rw [ha2, applyPayload_watched_of_some hst hpw he1t now2]
            have h1' := hmark.1
            rw [haw1 w hpw, orZero_some] at h1'
            have : max 0 (min w t) = t := by omega
            rw [this]
        have hm2 : t ≤ orZero a2.watchedEpisodes ∧ 0 < t := by
          rw [ha2w, orZero_some]
          exact ⟨le_refl t, hmark.2⟩
        by_cases ha2st : a2.status = "watched"
        · -- recomputation skipped the second time
          have h2 : updateSeriesProgress e1 p now2 = .ok a2 :=
            (recompute_rules a2 now2 t ha2t).1 ha2st
          refine ⟨e1, a2, h1, h2, by rw [ha2st, he1st], by rw [ha2w, he1w], ?_⟩
          intro hcs hce
          rw [ha2]
          exact applyPayload_cursor_id hst hcs hce e1 now2
        · -- recomputation marks again
          have h2 : updateSeriesProgress e1 p now2 = .ok (markAsWatched a2 now2) :=
            ((recompute_rules a2 now2 t ha2t).2 ha2st).1 hm2
          refine ⟨e1, markAsWatched a2 now2, h1, h2, ?_, ?_, ?_⟩
          · rw [markAsWatched_status, he1st]
          · rw [markAsWatched_watchedEpisodes_series ha2c ha2t (by omega), he1w]
          · intro hcs hce
            by_cases hse : e.seasons = []
            · rw [markAsWatched_series_no_seasons ha2c ha2t (by omega)
                  (by rw [ha2s]; exact hse),
                he1, markAsWatched_series_no_seasons hac hat (by omega)
                  (by rw [has]; exact hse)]
              have hcur := applyPayload_cursor_id hst hcs hce e1 now2
              rw [← ha2] at hcur
              constructor
              · show a2.currentSeason = a1.currentSeason
                rw [hcur.1, he1, markAsWatched_series_no_seasons hac hat (by omega)
                  (by rw [has]; exact hse)]
              · show a2.currentEpisode = a1.currentEpisode
                rw [hcur.2, he1, markAsWatched_series_no_seasons hac hat (by omega)
                  (by rw [has]; exact hse)]
            · rw [markAsWatched_series_seasons ha2c ha2t (by omega) (by rw [ha2s]; exact hse),
                he1, markAsWatched_series_seasons hac hat (by omega) (by rw [has]; exact hse)]
              constructor
              · show some (maxSeasonNumber a2.seasons) = some (maxSeasonNumber a1.seasons)
                rw [ha2s, has]
              · show some (episodesOfSeasonNumber a2.seasons (maxSeasonNumber a2.seasons))
                  = some (episodesOfSeasonNumber a1.seasons (maxSeasonNumber a1.seasons))
                rw [ha2s, has]
      · -- first application ends watching or pending; the second repeats it
        by_cases hwpos : 0 < orZero a1.watchedEpisodes
        · have h1 : updateSeriesProgress e p now = .ok { a1 with status := "watching" } :=
            hr.2.1 hmark hwpos
          set e1 : WatchEntry := { a1 with status := "watching" } with he1
          have he1t : e1.totalEpisodes = some t := hat
          set a2 := applyPayload e1 p now2 with ha2
          have ha2t : a2.totalEpisodes = some t := by
            rw [ha2, applyPayload_totalEpisodes]; exact he1t
          have ha2st : a2.status ≠ "watched" := by
            cases hps : p.status with
            | none =>
              rw [ha2, applyPayload_status_none hps]
              show ("watching" : String) ≠ "watched"
              decide
            | some s =>
              have hsne : s ≠ "watched" := fun h => hst (by rw [hps, h])
              rw [ha2, applyPayload_status_some hps hsne]
              exact hsne
          have ha2w : a2.watchedEpisodes = a1.watchedEpisodes := by
            cases hpw : p.watchedEpisodes with
            | none => rw [ha2, applyPayload_watched_of_none hst hpw]
            | some w => rw [ha2, applyPayload_watched_of_some hst hpw he1t now2, haw1 w hpw]
          have h2 : updateSeriesProgress e1 p now2 = .ok { a2 with status := "watching" } :=
            ((recompute_rules a2 now2 t ha2t).2 ha2st).2.1
              (by rw [ha2w]; exact hmark) (by rw [ha2w]; exact hwpos)
          refine ⟨e1, { a2 with status := "watching" }, h1, h2, rfl, ?_, ?_⟩
          · show a2.watchedEpisodes = a1.watchedEpisodes
            exact ha2w
          · intro hcs hce
            have hcur := applyPayload_cursor_id hst hcs hce e1 now2
            rw [← ha2] at hcur
            exact ⟨hcur.1, hcur.2⟩
        · have hwle : orZero a1.watchedEpisodes ≤ 0 := le_of_not_lt hwpos
          have h1 : updateSeriesProgress e p now = .ok { a1 with status := "pending" } :=
            hr.2.2 hmark hwle
          set e1 : WatchEntry := { a1 with status := "pending" } with he1
          have he1t : e1.totalEpisodes = some t := hat
          set a2 := applyPayload e1 p now2 with ha2
          have ha2t : a2.totalEpisodes = some t := by
            rw [ha2, applyPayload_totalEpisodes]; exact he1t
          have ha2st : a2.status ≠ "watched" := by
            cases hps : p.status with
            | none =>
              rw [ha2, applyPayload_status_none hps]
              show ("pending" : String) ≠ "watched"
              decide
            | some s =>
              have hsne : s ≠ "watched" := fun h => hst (by rw [hps, h])
              rw [ha2, applyPayload_status_some hps hsne]
              exact hsne
          have ha2w : a2.watchedEpisodes = a1.watchedEpisodes := by
            cases hpw : p.watchedEpisodes with
            | none => rw [ha2, applyPayload_watched_of_none hst hpw]
            | some w => rw [ha2, applyPayload_watched_of_some hst hpw he1t now2, haw1 w hpw]
          have h2 : updateSeriesProgress e1 p now2 = .ok { a2 with status := "pending" } :=
            ((recompute_rules a2 now2 t ha2t).2 ha2st).2.2
              (by rw [ha2w]; exact hmark) (by rw [ha2w]; exact hwle)
          refine ⟨e1, { a2 with status := "pending" }, h1, h2, rfl, ?_, ?_⟩
          · show a2.watchedEpisodes = a1.watchedEpisodes
            exact ha2w
          · intro hcs hce
            have hcur := applyPayload_cursor_id hst hcs hce e1 now2
            rw [← ha2] at hcur
            exact ⟨hcur.1, hcur.2⟩

/-- Witness for C5: PATCH `{watched_episodes: 5}` applied twice to the
sample entry. -/
theorem C5_second_update_same_witness :
    ∃ e1 e2,
      updateSeriesProgress sampleEntry ⟨some 5, none, none, none⟩ 1 = .ok e1 ∧
      updateSeriesProgress e1 ⟨some 5, none, none, none⟩ 2 = .ok e2 ∧
      e2.status = e1.status ∧ e2.watchedEpisodes = e1.watchedEpisodes ∧
      ((⟨some 5, none, none, none⟩ : ProgressPayload).currentSeason = none →
        (⟨some 5, none, none, none⟩ : ProgressPayload).currentEpisode = none →
        e2.currentSeason = e1.currentSeason ∧ e2.currentEpisode = e1.currentEpisode) :=
  C5_second_update_same sampleEntry ⟨some 5, none, none, none⟩ 1 2 18 rfl rfl

/-! ## Claim C4 -/

/-- C4 counterexample: `add_season` performs no range validation on
`episodes_count`, so a season `(1, -5)` is accepted; `add_series` on that
series creates a reachable entry with `total_episodes = -5`,
`watched_episodes = 0` and status pending, and `percentage_watched`
evaluates `round(min(0, -5) / -5 * 100, 2) = 100.0` — 100 without the
status being watched. -/
theorem C4_counterexample :
    ReachableEntry (newSeriesEntry 1 5 [⟨5, 1, -5⟩] 0) ∧
    percentageWatched (newSeriesEntry 1 5 [⟨5, 1, -5⟩] 0) = 100 ∧
    (newSeriesEntry 1 5 [⟨5, 1, -5⟩] 0).status ≠ "watched" := by
  refine ⟨ReachableEntry.series 1 5 [⟨5, 1, -5⟩] 0, ?_, by decide⟩
  have hsum : sumEpisodes [(⟨5, 1, -5⟩ : Season)] = -5 := rfl
  norm_num [percentageWatched, newSeriesEntry, hsum, orZero, round2, roundHalfEven]

/-- The state invariant maintained by the watchlist operations:
`total_episodes` and `watched_episodes` are actual integers,
`watched_episodes` is nonnegative unless the terminal transition copied a
(possibly negative) total into it, and an entry that is not watched has
`watched_episodes < total_episodes` or a nonpositive total. -/
def EntryInv (e : WatchEntry) : Prop :=
  ∃ t w, e.totalEpisodes = some t ∧ e.watchedEpisodes = some w ∧
    (0 ≤ w ∨ w = t) ∧ (e.status ≠ "watched" → (w < t ∨ t ≤ 0))

theorem EntryInv_newMovieEntry (uid mid : Int) (now : Nat) :
    EntryInv (newMovieEntry uid mid now) :=
  ⟨1, 0, rfl, rfl, Or.inl (le_refl 0), fun _ => Or.inl (by norm_num)⟩

theorem EntryInv_newSeriesEntry (uid sid : Int) (seasons : List Season) (now : Nat) :
    EntryInv (newSeriesEntry uid sid seasons now) :=
  ⟨sumEpisodes seasons, 0, rfl, rfl, Or.inl (le_refl 0), fun _ => by omega⟩

theorem markAsWatched_watched_invariant {x : WatchEntry} {now : Nat} {t w : Int}
    (ht : x.totalEpisodes = some t) (hw : x.watchedEpisodes = some w)
    (hw0 : 0 ≤ w ∨ w = t) :
    ∃ w', (markAsWatched x now).watchedEpisodes = some w' ∧ (0 ≤ w' ∨ w' = t) := by
  unfold markAsWatched
  dsimp only
  split_ifs with h1 h2 h3
  · exact ⟨1, rfl, Or.inl (by norm_num)⟩
  · exact ⟨t, ht, Or.inr rfl⟩
  · exact ⟨t, ht, Or.inr rfl⟩
  · exact ⟨w, hw, hw0⟩

theorem applyPayload_watched_invariant (p : ProgressPayload) (now : Nat)
    {x : WatchEntry} {t w : Int}
    (ht : x.totalEpisodes = some t) (hw : x.watchedEpisodes = some w)
    (hw0 : 0 ≤ w ∨ w = t) :
    ∃ w', (applyPayload x p now).watchedEpisodes = some w' ∧ (0 ≤ w' ∨ w' = t) := by
  unfold applyPayload
  have hyt : (applyCursorFields (applyWatchedField x p) p).totalEpisodes = some t := by
    rw [applyCursorFields_totalEpisodes, applyWatchedField_totalEpisodes, ht]
  have hyw : ∃ w', (applyCursorFields (applyWatchedField x p) p).watchedEpisodes = some w' ∧
      (0 ≤ w' ∨ w' = t) := by
    rw [applyCursorFields_watchedEpisodes]
    unfold applyWatchedField
    cases hpw : p.watchedEpisodes with
    | none => exact ⟨w, hw, hw0⟩
    | some v => exact ⟨max 0 (min v (orZero x.totalEpisodes)), rfl, Or.inl (le_max_left 0 _)⟩
  rcases hyw with ⟨w', hyw, hw0'⟩
  unfold applyStatusField
  cases hps : p.status with
  | none => exact ⟨w', hyw, hw0'⟩
  | some s =>
    dsimp only
    split_ifs with hsw
    · exact markAsWatched_watched_invariant hyt hyw hw0'
    · exact ⟨w', hyw, hw0'⟩

theorem EntryInv_update {e e' : WatchEntry} {ss : List Season} {p : ProgressPayload} {now : Nat}
    (hInv : EntryInv e) (h : updateSeriesProgress (setSeasons e ss) p now = .ok e') :
    EntryInv e' := by
  obtain ⟨t, w, ht, hw, hw0, -⟩ := hInv
  have hxt : (setSeasons e ss).totalEpisodes = some t := ht
  have hxw : (setSeasons e ss).watchedEpisodes = some w := hw
  rcases applyPayload_watched_invariant p now hxt hxw hw0 with ⟨w', haw, hw0'⟩
  have hat : (applyPayload (setSeasons e ss) p now).totalEpisodes = some t := by
    rw [applyPayload_totalEpisodes]; exact hxt
  unfold updateSeriesProgress recompute at h
  rw [hat, haw] at h
  dsimp only at h
  simp only [orZero_some] at h
  split_ifs at h with h1 h2 h3 h4 h5
  · cases h
    exact ⟨t, w', hat, haw, hw0', fun hne => absurd h1 hne⟩
  · cases h
    rcases @markAsWatched_watched_invariant (applyPayload (setSeasons e ss) p now) now t w'
      hat haw hw0' with ⟨w'', hmw, hw0''⟩
    exact ⟨t, w'', by rw [markAsWatched_totalEpisodes]; exact hat, hmw, hw0'',
      fun hne => absurd (markAsWatched_status _ now) hne⟩
  · cases h
    exact ⟨t, w', rfl, rfl, hw0', fun _ => Or.inr (by omega)⟩
  · cases h
    exact ⟨t, w', rfl, rfl, hw0', fun _ => Or.inr (by omega)⟩
  · cases h
    exact ⟨t, w', rfl, rfl, hw0', fun _ => Or.inl (by omega)⟩
  · cases h
    exact ⟨t, w', rfl, rfl, hw0', fun _ => Or.inl (by omega)⟩

theorem ReachableEntry_inv {e : WatchEntry} (h : ReachableEntry e) : EntryInv e := by
  induction h with
  | movie uid mid now => exact EntryInv_newMovieEntry uid mid now
  | series uid sid seasons now => exact EntryInv_newSeriesEntry uid sid seasons now
  | progress ss p now _ _ hupd ih => exact EntryInv_update ih hupd

/-! Rounding bounds for `roundHalfEven`. -/

theorem roundHalfEven_ge {q : ℚ} {a : ℤ} (h : (a : ℚ) ≤ q) : a ≤ roundHalfEven q := by
  have hfl : a ≤ ⌊q⌋ := Int.le_floor.mpr h
  unfold roundHalfEven
  dsimp only
  split_ifs <;> omega

theorem roundHalfEven_le {q : ℚ} {b : ℤ} (h : q ≤ (b : ℚ)) : roundHalfEven q ≤ b := by
  have hfl : ⌊q⌋ ≤ b := by
    have h2 : ⌊q⌋ ≤ ⌊(b : ℚ)⌋ := Int.floor_le_floor h
    rwa [Int.floor_intCast] at h2
  have hq : (⌊q⌋ : ℚ) ≤ q := Int.floor_le q
  unfold roundHalfEven
  dsimp only
  split_ifs with h1 h2 h3
  · exact hfl
  · rcases lt_or_eq_of_le hfl with hlt | heq
    · omega
    · exfalso
      rw [heq] at h2
      have : (b : ℚ) + 1 / 2 < q := by linarith
      linarith
  · exact hfl
  · have htie : q - ⌊q⌋ = 1 / 2 := le_antisymm (not_lt.mp h2) (not_lt.mp h1)
    have : (⌊q⌋ : ℚ) + 1 / 2 ≤ b := by linarith
    have hlt : (⌊q⌋ : ℚ) < (b : ℚ) := by linarith
    have : ⌊q⌋ < b := by exact_mod_cast hlt
    omega

theorem roundHalfEven_le_of_lt_half {q : ℚ} {n : ℤ} (h : q < (n : ℚ) + 1 / 2) :
    roundHalfEven q ≤ n := by
  have hfl : ⌊q⌋ ≤ n := by
    have h2 : (⌊q⌋ : ℚ) ≤ q := Int.floor_le q
    have h3 : (⌊q⌋ : ℚ) < (n : ℚ) + 1 / 2 := lt_of_le_of_lt h2 h
    by_contra hcon
    have h4 : n + 1 ≤ ⌊q⌋ := by omega
    have h5 : ((n : ℚ) + 1) ≤ (⌊q⌋ : ℚ) := by exact_mod_cast h4
    linarith
  unfold roundHalfEven
  dsimp only
  split_ifs with h1 h2 h3
  · exact hfl
  · rcases lt_or_eq_of_le hfl with hlt | heq
    · omega
    · exfalso
      rw [heq] at h2
      linarith
  · exact hfl
  · have htie : q - ⌊q⌋ = 1 / 2 := le_antisymm (not_lt.mp h2) (not_lt.mp h1)
    rcases lt_or_eq_of_le hfl with hlt | heq
    · omega
    · exfalso
      rw [heq] at htie
      linarith

/-- Percentage bounds from the state invariant. -/
theorem percentage_of_inv (e : WatchEntry) (hInv : EntryInv e) :
    0 ≤ percentageWatched e ∧ percentageWatched e ≤ 100 ∧
    (e.status = "watched" → percentageWatched e = 100) ∧
    (∀ t, e.totalEpisodes = some t → 0 ≤ t → t < 20000 →
      percentageWatched e = 100 → e.status = "watched") := by
  obtain ⟨t0, w, ht, hw, hw0, hws⟩ := hInv
  by_cases hsw : e.status = "watched"
  · unfold percentageWatched
    rw [if_pos hsw]
    exact ⟨by norm_num, le_refl 100, fun _ => rfl, fun _ _ _ _ _ => hsw⟩
  · have hcond := hws hsw
    unfold percentageWatched
    rw [if_neg hsw, ht, hw]
    dsimp only
    simp only [orZero_some]
    by_cases ht0 : t0 = 0
    · rw [if_pos ht0]
      refine ⟨le_refl 0, by norm_num, fun h => absurd h hsw, ?_⟩
      intro t' _ _ _ h100
      exact absurd h100 (by norm_num)
    · rw [if_neg ht0]
      rcases hcond with hlt | hle
      · -- watched strictly below a positive total
        have h0w : 0 ≤ w := by rcases hw0 with h0 | heq <;> omega
        have ht0pos : 0 < t0 := by omega
        rw [min_eq_left (le_of_lt hlt)]
        have htQ : (0 : ℚ) < ((t0 : Int) : ℚ) := by exact_mod_cast ht0pos
        have hwQ : (0 : ℚ) ≤ ((w : Int) : ℚ) := by exact_mod_cast h0w
        have hwtQ : ((w : Int) : ℚ) ≤ ((t0 : Int) : ℚ) := by exact_mod_cast le_of_lt hlt
        have hx0 : (0 : ℚ) ≤ ((w : Int) : ℚ) / ((t0 : Int) : ℚ) * 100 := by positivity
        have hx100 : ((w : Int) : ℚ) / ((t0 : Int) : ℚ) * 100 ≤ 100 := by
          rw [div_mul_eq_mul_div, div_le_iff₀ htQ]
          nlinarith
        refine ⟨?_, ?_, fun h => absurd h hsw, ?_⟩
        · unfold round2
          have hge := @roundHalfEven_ge (((w : Int) : ℚ) / ((t0 : Int) : ℚ) * 100 * 100) 0
            (by positivity)
          have : (0 : ℚ) ≤ ((roundHalfEven (((w : Int) : ℚ) / ((t0 : Int) : ℚ) * 100 * 100)
              : Int) : ℚ) := by exact_mod_cast hge
          positivity
        · unfold round2
          have hble := @roundHalfEven_le (((w : Int) : ℚ) / ((t0 : Int) : ℚ) * 100 * 100) 10000
            (by push_cast; nlinarith)
          have hble2 : ((roundHalfEven (((w : Int) : ℚ) / ((t0 : Int) : ℚ) * 100 * 100)
              : Int) : ℚ) ≤ 10000 := by exact_mod_cast hble
          linarith
        · intro t' ht' h0' hlt' h100
          injection ht' with heq'
          exfalso
          have ht0small : t0 < 20000 := by omega
          have hkey : ((w : Int) : ℚ) / ((t0 : Int) : ℚ) * 100 * 100
              < ((9999 : ℤ) : ℚ) + 1 / 2 := by
            rw [div_mul_eq_mul_div, div_mul_eq_mul_div, div_lt_iff₀ htQ]
            have hZ : 20000 * w < 19999 * t0 := by omega
            have hQ : ((20000 * w : Int) : ℚ) < ((19999 * t0 : Int) : ℚ) := by
              exact_mod_cast hZ
            push_cast at hQ ⊢
            linarith
          have hle9999 := roundHalfEven_le_of_lt_half hkey
          unfold round2 at h100
          rw [div_eq_iff (by norm_num : (100 : ℚ) ≠ 0)] at h100
          norm_num at h100
          have h10000 : roundHalfEven (((w : Int) : ℚ) / ((t0 : Int) : ℚ) * 100 * 100)
              = 10000 := by exact_mod_cast h100
          omega
      · -- nonpositive total: the ratio degenerates to exactly 1
        have ht0neg : t0 < 0 := by omega
        have hmin : min w t0 = t0 := by
          rcases hw0 with h0 | heq
          · exact min_eq_right (by omega)
          · rw [heq]
            exact min_self t0
        have htQne : ((t0 : Int) : ℚ) ≠ 0 := Int.cast_ne_zero.mpr ht0
        rw [hmin, div_self htQne, one_mul]
        have h100 : round2 (100 : ℚ) = 100 := by norm_num [round2, roundHalfEven]
        rw [h100]
        refine ⟨by norm_num, le_refl 100, fun h => absurd h hsw, ?_⟩
        intro t' ht' h0' _ _
        injection ht' with heq'
        omega

/-- C4 (amended): for every watch entry reachable through the watchlist
operations, `percentage_watched` lies in `[0, 100]` and equals 100.0
whenever the status is watched; the converse — 100.0 only when watched —
holds under the additional assumption that the entry's `total_episodes` is
nonnegative and below 20000. (Both restrictions are necessary: a negative
`total_episodes` is reachable because `add_season` accepts a negative
`episodes_count`, giving the counterexample, and for
`total_episodes ≥ 20000` rounding to two decimals yields 100.0 at
`watched_episodes = total_episodes - 1` in the exact-arithmetic model of
the float computation.) -/
theorem C4_percentage_invariant (e : WatchEntry) (h : ReachableEntry e) :
    0 ≤ percentageWatched e ∧ percentageWatched e ≤ 100 ∧
    (e.status = "watched" → percentageWatched e = 100) ∧
    (∀ t, e.totalEpisodes = some t → 0 ≤ t → t < 20000 →
      percentageWatched e = 100 → e.status = "watched") :=
  percentage_of_inv e (ReachableEntry_inv h)

/-- Witness for C4: the sample entry (total 18, watched 0, pending). -/
theorem C4_percentage_invariant_witness :
    0 ≤ percentageWatched sampleEntry ∧ percentageWatched sampleEntry ≤ 100 ∧
    (sampleEntry.status = "watched" → percentageWatched sampleEntry = 100) ∧
    (percentageWatched sampleEntry = 100 → sampleEntry.status = "watched") :=
  ⟨(C4_percentage_invariant sampleEntry (ReachableEntry.series 1 5 sampleSeasons 0)).1,
    (C4_percentage_invariant sampleEntry (ReachableEntry.series 1 5 sampleSeasons 0)).2.1,
    (C4_percentage_invariant sampleEntry (ReachableEntry.series 1 5 sampleSeasons 0)).2.2.1,
    (C4_percentage_invariant sampleEntry (ReachableEntry.series 1 5 sampleSeasons 0)).2.2.2
      18 rfl (by decide) (by decide)⟩

/-! ## Claim C6 -/

/-- C6 counterexample: adding season number 1 to a series that already has a
season number 1 returns HTTP 400, not the 409 Conflict the claim states (the
route maps every `ValueError` whose message lacks `"no existe"` to 400, and
its own comment documents 400 for a duplicate season). -/
theorem C6_counterexample :
    addSeasonRoute (some ⟨5, "s", 2⟩) [⟨5, 1, 10⟩] 5 (some 1) (some 8)
      = (400, [⟨5, 1, 10⟩]) ∧ (400 : Nat) ≠ 409 := by
  constructor
  · rfl
  · decide

/-- C6 (amended): for every existing series, adding a season whose number
equals an existing season of that series fails with HTTP 400 (Bad Request),
not 409; no season is created and the existing seasons are unchanged. -/
theorem C6_duplicate_season_rejected_400 (srow : SeriesRow) (store : List Season)
    (sid n ec : Int) (s0 : Season) (hmem : s0 ∈ store) (hsid : s0.seriesId = sid)
    (hn : s0.number = n) :
    addSeasonRoute (some srow) store sid (some n) (some ec) = (400, store) := by
  have hfind : (store.find? (fun s => s.seriesId == sid && s.number == n)).isSome := by
    rw [List.find?_isSome]
    exact ⟨s0, hmem, by simp [hsid, hn]⟩
  unfold addSeasonRoute addSeasonService
  simp only [hfind, if_true, dup_season_msg_not_404, if_false, Bool.false_eq_true]

/-- Witness for C6: a concrete duplicate-season request through the route. -/
theorem C6_duplicate_season_rejected_400_witness :
    addSeasonRoute (some ⟨7, "t", 3⟩) [⟨7, 2, 4⟩] 7 (some 2) (some 9) = (400, [⟨7, 2, 4⟩]) :=
  C6_duplicate_season_rejected_400 ⟨7, "t", 3⟩ [⟨7, 2, 4⟩] 7 2 9 ⟨7, 2, 4⟩ (by decide) rfl rfl

/-! ## Claim C7 -/

/-- C7: for an existing series not already in the watchlist, `add_series`
creates an entry with status pending, `watched_episodes = 0`, cursor
`(1, 1)` and `total_episodes` equal to the sum of the series' seasons'
episode counts at call time (0 when there are no seasons, since the sum of
the empty list is 0); and no later `update_series_progress`, run against any
later season list, changes that total. -/
theorem C7_add_series_entry (srow : SeriesRow) (seasons : List Season)
    (entries : List WatchEntry) (uid sid : Int) (now : Nat)
    (hfree : ∀ e ∈ entries, entryMatches uid "series" sid e = false) :
    ∃ en, addSeriesService (some srow) seasons entries uid sid now = .ok en ∧
      en.status = "pending" ∧ en.watchedEpisodes = some 0 ∧
      en.currentSeason = some 1 ∧ en.currentEpisode = some 1 ∧
      en.totalEpisodes = some (sumEpisodes seasons) ∧
      ∀ ss p now2 en2, updateSeriesProgress (setSeasons en ss) p now2 = .ok en2 →
        en2.totalEpisodes = some (sumEpisodes seasons) := by
  have hfind : entries.find? (entryMatches uid "series" sid) = none :=
    List.find?_eq_none.mpr (by intro x hx; simp [hfree x hx])
  refine ⟨newSeriesEntry uid sid seasons now, ?_, rfl, rfl, rfl, rfl, rfl, ?_⟩
  · unfold addSeriesService
    simp [hfind]
  · intro ss p now2 en2 h
    rw [updateSeriesProgress_totalEpisodes h]
    rfl

/-- Witness for C7: the spec scenario, seasons `[(1,10),(2,8)]` giving
`total_episodes = 18`. -/
theorem C7_add_series_entry_witness :
    ∃ en, addSeriesService (some ⟨5, "t", 2⟩) [⟨5, 1, 10⟩, ⟨5, 2, 8⟩] [] 1 5 0 = .ok en ∧
      en.status = "pending" ∧ en.watchedEpisodes = some 0 ∧
      en.currentSeason = some 1 ∧ en.currentEpisode = some 1 ∧
      en.totalEpisodes = some (sumEpisodes [⟨5, 1, 10⟩, ⟨5, 2, 8⟩]) ∧
      ∀ ss p now2 en2,
        updateSeriesProgress (setSeasons en ss) p now2 = .ok en2 →
        en2.totalEpisodes = some (sumEpisodes [⟨5, 1, 10⟩, ⟨5, 2, 8⟩]) :=
  C7_add_series_entry ⟨5, "t", 2⟩ [⟨5, 1, 10⟩, ⟨5, 2, 8⟩] [] 1 5 0
    (by intro e he; cases he)

/-! ## Claim C8 -/

/-- C8: when a watchlist entry for the `(user, content)` pair already
exists, a second `add_movie` / `add_series` call for that pair (with the
content still present in the catalog) returns HTTP 409 and leaves the
entry store unchanged. -/
theorem C8_duplicate_watchlist_conflict (entries : List WatchEntry) (uid cid : Int)
    (now : Nat) (mov : Movie) (srow : SeriesRow) (seasons : List Season) :
    ((∃ e ∈ entries, entryMatches uid "movie" cid e = true) →
      addMovieRoute (some mov) entries uid cid now = (409, entries)) ∧
    ((∃ e ∈ entries, entryMatches uid "series" cid e = true) →
      addSeriesRoute (some srow) seasons entries uid cid now = (409, entries)) := by
  constructor
  · intro hex
    have hfind : (entries.find? (entryMatches uid "movie" cid)).isSome :=
      List.find?_isSome.mpr hex
    unfold addMovieRoute addMovieService
    simp [hfind, show strContains "Pelicula ya esta en la watchlist." "no encontrada" = false
      from by decide]
  · intro hex
    have hfind : (entries.find? (entryMatches uid "series" cid)).isSome :=
      List.find?_isSome.mpr hex
    unfold addSeriesRoute addSeriesService
    simp [hfind, show strContains "Serie ya esta en la watchlist." "no encontrada" = false
      from by decide]

/-- Witness for C8: concrete duplicate movie and series additions. -/
theorem C8_duplicate_watchlist_conflict_witness :
    addMovieRoute (some ⟨2, "m"⟩) [newMovieEntry 1 2 0] 1 2 5
      = (409, [newMovieEntry 1 2 0]) ∧
    addSeriesRoute (some ⟨2, "s", 1⟩) [] [newSeriesEntry 1 2 [] 0] 1 2 5
      = (409, [newSeriesEntry 1 2 [] 0]) :=
  ⟨(C8_duplicate_watchlist_conflict [newMovieEntry 1 2 0] 1 2 5 ⟨2, "m"⟩ ⟨2, "s", 1⟩ []).1
      ⟨newMovieEntry 1 2 0, by decide⟩,
    (C8_duplicate_watchlist_conflict [newSeriesEntry 1 2 [] 0] 1 2 5 ⟨2, "m"⟩ ⟨2, "s", 1⟩ []).2
      ⟨newSeriesEntry 1 2 [] 0, by decide⟩⟩

/-! ## Claim C9 -/

/-- C9 counterexample: the user identifier `-1` is not a positive integer,
yet `require_user_id` does not reject it (`if not user_id` only catches the
absent header, a non-numeric header, and the value 0). -/
theorem C9_counterexample :
    requireUserId (some (-1)) ≠ none ∧ ¬ (0 < (-1 : Int)) := by decide

/-- C9 (amended): a request is rejected with 401 before any service logic
exactly when the parsed `X-User-Id` header is absent (including non-numeric
values, which parse to `none`) or equal to 0; every nonzero identifier —
in particular every positive one — passes the check unchanged. -/
theorem C9_requireUserId_amended :
    (∀ h : Option Int, requireUserId h = none ↔ h = none ∨ h = some 0) ∧
    (∀ v : Int, 0 < v → requireUserId (some v) = some v) := by
  constructor
  · intro h
    cases h with
    | none => simp [requireUserId]
    | some v => by_cases hv : v = 0 <;> simp [requireUserId, hv]
  · intro v hv
    simp [requireUserId, show v ≠ 0 by omega]

/-- Witness for C9: the identifier 7 passes the check. -/
theorem C9_requireUserId_amended_witness :
    (requireUserId (some 7) = none ↔ (some 7 : Option Int) = none ∨ (some 7 : Option Int) = some 0)
    ∧ requireUserId (some 7) = some 7 :=
  ⟨C9_requireUserId_amended.1 (some 7), C9_requireUserId_amended.2 7 (by decide)⟩

/-! ## Claim C10 -/

/-- C10: on a series entry whose `total_episodes` is 0 or unset, the payload
`{status: "watched"}` sets the status to watched and refreshes the
timestamp, but leaves `watched_episodes`, `current_season` and
`current_episode` untouched — whatever season data the series has — and the
resulting entry reports `percentage_watched = 100.0`. -/
theorem C10_watched_with_zero_total (e : WatchEntry) (now : Nat)
    (hc : e.contentType = "series")
    (ht : e.totalEpisodes = some 0 ∨ e.totalEpisodes = none) :
    updateSeriesProgress e ⟨none, none, none, some "watched"⟩ now =
      .ok { e with status := "watched", updatedAt := now } ∧
    percentageWatched { e with status := "watched", updatedAt := now } = 100 := by
  have hoz : orZero e.totalEpisodes = 0 := by rcases ht with h | h <;> simp [h, orZero]
  constructor
  · unfold updateSeriesProgress applyPayload applyStatusField applyCursorFields
      applyWatchedField markAsWatched recompute
    simp [hc, hoz]
  · simp [percentageWatched]

/-- Witness for C10: an entry created by `add_series` when the series had no
seasons (`total_episodes = 0`), updated after a season `(1, 7)` was added to
the catalog. -/
theorem C10_watched_with_zero_total_witness :
    updateSeriesProgress (setSeasons (newSeriesEntry 1 5 [] 0) [⟨5, 1, 7⟩])
        ⟨none, none, none, some "watched"⟩ 3 =
      .ok { setSeasons (newSeriesEntry 1 5 [] 0) [⟨5, 1, 7⟩] with
              status := "watched", updatedAt := 3 } ∧
    percentageWatched { setSeasons (newSeriesEntry 1 5 [] 0) [⟨5, 1, 7⟩] with
        status := "watched", updatedAt := 3 } = 100 :=
  C10_watched_with_zero_total (setSeasons (newSeriesEntry 1 5 [] 0) [⟨5, 1, 7⟩]) 3
    rfl (Or.inl rfl)

end Watchlog
